import Mathlib

/-!
Shallow embedding of `src/efb_telegram_master/auto_tg_manager.py` (class
`AutoTGManager`).

The Python module sequences calls to external collaborators (a pyrogram
Telegram client, the host framework's database-backed association table, the
chat object's `link` method, an image library), guarded by config lookups and
`try/except` blocks.  We embed it as follows:

* Effects are modelled by a writer-plus-exception monad `M`: each computation
  yields an `Except PyExn α` result together with the list of external calls
  (`Event`s) it attempted, in order.  An event is recorded at the moment the
  call is attempted, whether or not the collaborator then raises.
* The outcome of each external call is an input, collected in an `Env`
  record: a field `Except.ok v` means the call returns `v`, `Except.error e`
  means it raises `e`.  Quantifying over `Env` quantifies over every possible
  behaviour (including every exception) of the collaborators.
* Python `try/except Exception` is `M.tryCatch`; `raise` is `M.throw`.
* Config values come from `flag('auto_manage_tg_config')`.  Truthiness of a
  YAML scalar config entry is modelled on `Option`: a missing key is `none`,
  and a present string value is falsy exactly when empty.
* Python machine integers and image dimensions are `Nat`; the float
  computation `int(scale * a)` with `scale = 256 / min(size)` is idealised as
  exact arithmetic, i.e. `256 * a / min w h` with `Nat` floor division.
-/

/-- Python exceptions that the embedded code can observe or raise. -/
inductive PyExn where
  | attributeError
  | keyError
  | assertionError
  | zeroDivisionError
  | efbOperationNotSupported
  | external (code : Nat)
  deriving DecidableEq

/-- A PIL image: only its pixel dimensions are observable here. -/
structure Image where
  w : Nat
  h : Nat
  deriving DecidableEq

/-- The payload handed to `bot.set_chat_photo`: either the original picture
stream, or the rescaled copy saved as PNG with the given dimensions. -/
inductive Photo where
  | original (img : Image)
  | resizedPNG (w : Nat) (h : Nat)
  deriving DecidableEq

/-- A freshly created Telegram chat, as returned by
`tg_client.create_group`. -/
structure TGChat where
  id : Nat
  title : String
  deriving DecidableEq

/-- One element of the list returned by `GetDialogFilters`.
`isDialogFilter` records whether the element is an instance of
`pyrogram.raw.types.DialogFilter` (the RPC can also return other folder-like
objects, which the code filters out). -/
structure Folder where
  isDialogFilter : Bool
  id : Nat
  title : String
  include_peers : List Nat
  deriving DecidableEq

/-- The concrete class of an `ETMChatType` value: `ETMPrivateChat`,
`ETMGroupChat` or `ETMSystemChat`. -/
inductive ChatClass where
  | privateChat
  | groupChat
  | systemChat
  deriving DecidableEq

/-- An external chat handed to `create_tg_group_if_needed`: its class, its
`vendor_specific.get('is_mp')` flag, and its title. -/
structure ETMChat where
  cls : ChatClass
  is_mp : Bool
  chat_title : String
  deriving DecidableEq

/-- The `auto_manage_tg_config` experimental-flag dictionary.  Boolean fields
model the truthiness of the corresponding entry; `Option` fields distinguish
a missing key (`none`) from a present value. -/
structure TGConfig where
  auto_manage_tg : Bool
  tg_api_id : Bool
  tg_api_hash : Bool
  auto_create_tg_group : Option (List Nat)
  mq_auto_link_group_id : Option String
  auto_add_group_to_folder : Option (List (Nat × String))
  auto_archive_create_tg_group : Option (List Nat)
  auto_mute_created_tg_group : Option (List Nat)

/-- External calls the manager can attempt, in the order they appear in the
trace.  Payloads record the observable arguments of the call. -/
inductive Event where
  | startClient
  | createGroup
  | resolveBotPeer
  | resolveChatPeer
  | editChatAdmin
  | getDialogFilters
  | folderResolvePeer
  | updateDialogFilter (id : Nat) (include_peers : List Nat)
  | archiveChats
  | muteResolvePeer
  | updateNotifySettings
  | linkChat (target : String)
  | dbGetAssocSlaveMq
  | dbGetAssocSlaveChat
  | dbGetAssocMaster
  | getChat
  | getChatPicture
  | setChatPhoto (p : Photo)
  deriving DecidableEq

/-- Outcomes of the external collaborators.  Each field is the result of the
corresponding call: `Except.ok` is a normal return, `Except.error` a raised
exception. -/
structure Env where
  isConnected : Bool
  startClient : Except PyExn Unit
  createGroup : Except PyExn TGChat
  resolveBotPeer : Except PyExn Nat
  resolveChatPeer : Except PyExn Nat
  editChatAdmin : Except PyExn Unit
  getDialogFilters : Except PyExn (List Folder)
  folderResolvePeer : Except PyExn Nat
  updateDialogFilter : Except PyExn Bool
  archiveChats : Except PyExn Unit
  muteResolvePeer : Except PyExn Nat
  updateNotifySettings : Except PyExn Unit
  linkMq : Except PyExn Unit
  getAssocSlaveMq : Except PyExn (List String)
  linkCreated : Except PyExn Unit
  getAssocSlaveChat : Except PyExn (List String)
  getAssocMaster : Except PyExn (List String)
  getChat : Except PyExn Unit
  getChatPicture : Except PyExn (Option Image)
  setChatPhoto : Except PyExn Unit

/-- Writer-plus-exception monad: result together with the trace of attempted
external calls. -/
abbrev M (α : Type) : Type := Except PyExn α × List Event

/-- Return a value, no calls made. -/
def M.pure {α : Type} (a : α) : M α := (Except.ok a, [])

/-- Raise an exception, no calls made. -/
def M.throw {α : Type} (e : PyExn) : M α := (Except.error e, [])

/-- Attempt one external call with outcome `r`: the event is recorded whether
the call returns or raises. -/
def M.call {α : Type} (ev : Event) (r : Except PyExn α) : M α := (r, [ev])

/-- Sequencing: on an exception the continuation is skipped. -/
def M.bind {α β : Type} (x : M α) (f : α → M β) : M β :=
  match x with
  | (Except.ok a, t) => ((f a).1, t ++ (f a).2)
  | (Except.error e, t) => (Except.error e, t)

/-- Python `try/except Exception`: the handler receives the raised
exception. -/
def M.tryCatch {α : Type} (x : M α) (h : PyExn → M α) : M α :=
  match x with
  | (Except.ok a, t) => (Except.ok a, t)
  | (Except.error e, t) => ((h e).1, t ++ (h e).2)

/-- `__init__` lines 36-43: the `tg_client` attribute is created exactly when
`auto_manage_tg`, `tg_api_id` and `tg_api_hash` are all present and truthy in
the config. -/
def tg_client_is_set (cfg : TGConfig) : Bool :=
  cfg.auto_manage_tg && cfg.tg_api_id && cfg.tg_api_hash

/-- Python truthiness of an optional scalar config entry (missing or empty
means falsy). -/
def pyTruthyOptStr : Option String → Bool
  | none => false
  | some s => s != ""

/-- `_array_config_contains_chat_type` lines 190-197. -/
def array_config_contains_chat_type (config : Option (List Nat)) (chat : ETMChat) : Bool :=
  let c := config.getD []
  if (chat.is_mp = true ∧ 4 ∈ c) ∨
      (chat.cls = ChatClass.privateChat ∧ 1 ∈ c) ∨
      (chat.cls = ChatClass.groupChat ∧ 2 ∈ c) ∨
      (chat.cls = ChatClass.systemChat ∧ 3 ∈ c) then
    true
  else
    false

/-- The local closure `get_target_folder` (lines 147-152): the unique
`DialogFilter` with the given title, `None` when zero or several match. -/
def get_target_folder (folders : List Folder) (title : String) : Option Folder :=
  match folders.filter (fun x => x.isDialogFilter && x.title == title) with
  | [f] => some f
  | _ => none

/-- Value of the local variable `target_folder` after the `if/elif` chain
(lines 154-162).  `sentinel` is its initial value, the *typing object*
`Optional[pyrogram.raw.base.DialogFilter]` (line 154), which is truthy in
Python but has no `include_peers` attribute. -/
inductive TargetFolder where
  | folder (f : Folder)
  | noneVal
  | sentinel
  deriving DecidableEq

/-- Python `dict` access by key on the `auto_add_group_to_folder` config. -/
def dict_get (fc : List (Nat × String)) (k : Nat) : Option String :=
  (fc.find? (fun p => p.1 == k)).map Prod.snd

/-- Wrap `get_target_folder`at a title into the `target_folder` variable. -/
def mk_target (folders : List Folder) (title : String) : TargetFolder :=
  match get_target_folder folders title with
  | some f => TargetFolder.folder f
  | none => TargetFolder.noneVal

/-- Tail of the `if/elif` chain: the `ETMSystemChat` arm (line 161). -/
def pick_system (fc : List (Nat × String)) (folders : List Folder) (chat : ETMChat) :
    Except PyExn TargetFolder :=
  if chat.cls = ChatClass.systemChat then
    match dict_get fc 3 with
    | none => Except.error PyExn.keyError
    | some v =>
        if v != "" then Except.ok (mk_target folders v) else Except.ok TargetFolder.sentinel
  else Except.ok TargetFolder.sentinel

/-- The `ETMGroupChat` arm (line 159) and its continuation. -/
def pick_group (fc : List (Nat × String)) (folders : List Folder) (chat : ETMChat) :
    Except PyExn TargetFolder :=
  if chat.cls = ChatClass.groupChat then
    match dict_get fc 2 with
    | none => Except.error PyExn.keyError
    | some v =>
        if v != "" then Except.ok (mk_target folders v) else pick_system fc folders chat
  else pick_system fc folders chat

/-- The `ETMPrivateChat` arm (line 157) and its continuation. -/
def pick_private (fc : List (Nat × String)) (folders : List Folder) (chat : ETMChat) :
    Except PyExn TargetFolder :=
  if chat.cls = ChatClass.privateChat then
    match dict_get fc 1 with
    | none => Except.error PyExn.keyError
    | some v =>
        if v != "" then Except.ok (mk_target folders v) else pick_group fc folders chat
  else pick_group fc folders chat

/-- The full `if/elif` chain of lines 154-162, starting with the `is_mp` arm.
Evaluating a missing dict key raises `KeyError`; an arm whose config value is
falsy falls through; when no arm fires, `target_folder` keeps its sentinel
value. -/
def pick_target (fc : List (Nat × String)) (folders : List Folder) (chat : ETMChat) :
    Except PyExn TargetFolder :=
  if chat.is_mp then
    match dict_get fc 4 with
    | none => Except.error PyExn.keyError
    | some v =>
        if v != "" then Except.ok (mk_target folders v) else pick_private fc folders chat
  else pick_private fc folders chat

/-- `_add_tg_group_to_folder_if_needed` lines 139-171.  In the `sentinel`
case the code resolves the peer and then hits `AttributeError` on
`target_folder.include_peers`; every exception is swallowed by the outer
`except`. -/
def add_tg_group_to_folder_if_needed (cfg : TGConfig) (env : Env) (chat : ETMChat) : M Unit :=
  M.tryCatch
    (let fc := cfg.auto_add_group_to_folder.getD []
     if fc = [] then M.pure () else
     M.bind (M.call Event.getDialogFilters env.getDialogFilters) (fun folders =>
       match pick_target fc folders chat with
       | Except.error e => M.throw e
       | Except.ok TargetFolder.noneVal => M.pure ()
       | Except.ok (TargetFolder.folder f) =>
           M.bind (M.call Event.folderResolvePeer env.folderResolvePeer) (fun peer =>
           M.bind (M.call (Event.updateDialogFilter f.id (f.include_peers ++ [peer]))
                     env.updateDialogFilter) (fun r =>
           if r then M.pure () else M.throw PyExn.assertionError))
       | Except.ok TargetFolder.sentinel =>
           M.bind (M.call Event.folderResolvePeer env.folderResolvePeer) (fun _ =>
           M.throw PyExn.attributeError)))
    (fun _ => M.pure ())

/-- `_archive_tg_chat_if_needed` lines 173-178. -/
def archive_tg_chat_if_needed (cfg : TGConfig) (env : Env) (chat : ETMChat) : M Unit :=
  M.tryCatch
    (if array_config_contains_chat_type cfg.auto_archive_create_tg_group chat then
       M.call Event.archiveChats env.archiveChats
     else M.pure ())
    (fun _ => M.pure ())

/-- `_mute_tg_group_if_needed` lines 180-188. -/
def mute_tg_group_if_needed (cfg : TGConfig) (env : Env) (chat : ETMChat) : M Unit :=
  M.tryCatch
    (if array_config_contains_chat_type cfg.auto_mute_created_tg_group chat then
       M.bind (M.call Event.muteResolvePeer env.muteResolvePeer) (fun _ =>
       M.call Event.updateNotifySettings env.updateNotifySettings)
     else M.pure ())
    (fun _ => M.pure ())

/-- `_update_chat_image` lines 84-117.  `Image.open` on a falsy picture
raises (modelled as `external 0`); `scale = 256 / min(size)` raises
`ZeroDivisionError` on a degenerate image; `int(scale * a)` is idealised as
exact floor arithmetic `256 * a / min w h`.  Both `except` clauses
swallow. -/
def update_chat_image (env : Env) (_tg_chat : TGChat) : M Unit :=
  M.tryCatch
    (M.bind (M.call Event.dbGetAssocMaster env.getAssocMaster) (fun chats =>
     M.bind (if chats.length = 1 then M.pure () else M.throw PyExn.assertionError) (fun _ =>
     M.bind (M.call Event.getChat env.getChat) (fun _ =>
     M.bind (M.call Event.getChatPicture env.getChatPicture) (fun picture =>
     M.bind (match picture with
             | none => M.throw (PyExn.external 0)
             | some img => M.pure img) (fun pic_img =>
     M.bind (if pic_img.w < 256 ∨ pic_img.h < 256 then
               if min pic_img.w pic_img.h = 0 then M.throw PyExn.zeroDivisionError
               else
                 M.pure (some (Photo.resizedPNG (256 * pic_img.w / min pic_img.w pic_img.h)
                   (256 * pic_img.h / min pic_img.w pic_img.h)))
             else M.pure none) (fun pic_resized =>
     M.bind (M.call (Event.setChatPhoto (match pic_resized with
                                         | some p => p
                                         | none => Photo.original pic_img)) env.setChatPhoto)
       (fun _ => M.pure ()))))))))
    (fun _ => M.pure ())

/-- `_async_create_tg_group` lines 119-137.  The mutable local `tg_chat`
(initially `None`, assigned by `create_group`) is modelled by the nested
`tryCatch`: an exception before the assignment yields `none`, one after it
yields `some tg_chat`. -/
def async_create_tg_group (cfg : TGConfig) (env : Env) (chat : ETMChat) : M (Option TGChat) :=
  M.tryCatch
    (M.bind (if env.isConnected then M.pure () else M.call Event.startClient env.startClient)
      (fun _ =>
     M.bind (M.call Event.createGroup env.createGroup) (fun tg_chat =>
     M.tryCatch
       (M.bind (M.call Event.resolveBotPeer env.resolveBotPeer) (fun _ =>
        M.bind (M.call Event.resolveChatPeer env.resolveChatPeer) (fun _ =>
        M.bind (M.call Event.editChatAdmin env.editChatAdmin) (fun _ =>
        M.bind (add_tg_group_to_folder_if_needed cfg env chat) (fun _ =>
        M.bind (archive_tg_chat_if_needed cfg env chat) (fun _ =>
        M.bind (mute_tg_group_if_needed cfg env chat) (fun _ =>
        M.pure (some tg_chat))))))))
       (fun _ => M.pure (some tg_chat)))))
    (fun _ => M.pure none)

/-- `_create_tg_group` lines 70-82.  `tg_chat.title` on a `None` result
raises `AttributeError`; `assert len(tg_chats) == 1` raises
`AssertionError`.  The `finally: return None` clause overrides the `return
tg_chats[0]` of the `try` block, so the function's result is always `None`
while the trace keeps all attempted calls. -/
def create_tg_group (cfg : TGConfig) (env : Env) (chat : ETMChat) : M (Option String) :=
  let body :=
    M.bind (async_create_tg_group cfg env chat) (fun tg_chat_opt =>
    M.bind (match tg_chat_opt with
            | none => M.throw PyExn.attributeError
            | some c => M.pure c) (fun tg_chat =>
    M.bind (M.call (Event.linkChat (toString tg_chat.id)) env.linkCreated) (fun _ =>
    M.bind (update_chat_image env tg_chat) (fun _ =>
    M.bind (M.call Event.dbGetAssocSlaveChat env.getAssocSlaveChat) (fun tg_chats =>
    M.bind (if tg_chats.length = 1 then M.pure () else M.throw PyExn.assertionError) (fun _ =>
    M.pure tg_chats.head?))))))
  (Except.ok none, (M.tryCatch body (fun _ => M.pure none)).2)

/-- `create_tg_group_if_needed` lines 45-68.  When the `tg_client` attribute
was never created, `if not self.tg_client` raises `AttributeError`; when it
exists it is a (truthy) client object.  An `is_mp` chat with a truthy
`mq_auto_link_group_id` is routed to the link branch; otherwise the chat
type is matched against `auto_create_tg_group`. -/
def create_tg_group_if_needed (cfg : TGConfig) (env : Env) (chat : ETMChat) :
    M (Option String) :=
  if tg_client_is_set cfg = false then M.throw PyExn.attributeError else
  let auto_create_types := cfg.auto_create_tg_group.getD []
  if chat.is_mp = true ∧ pyTruthyOptStr cfg.mq_auto_link_group_id = true then
    let mq_tg_group_id := cfg.mq_auto_link_group_id.getD ""
    if mq_tg_group_id = "" then (Except.ok none, []) else
    M.bind (M.call (Event.linkChat mq_tg_group_id) env.linkMq) (fun _ =>
    M.bind (M.call Event.dbGetAssocSlaveMq env.getAssocSlaveMq) (fun tg_chats =>
    if tg_chats.length = 1 then M.pure tg_chats.head? else M.pure none))
  else if (chat.is_mp = true ∧ 4 ∈ auto_create_types) ∨
      (chat.cls = ChatClass.privateChat ∧ 1 ∈ auto_create_types) ∨
      (chat.cls = ChatClass.groupChat ∧ 2 ∈ auto_create_types) ∨
      (chat.cls = ChatClass.systemChat ∧ 3 ∈ auto_create_types) then
    create_tg_group cfg env chat
  else M.pure none

/-! ## Generic facts about the monad -/

/-- Binding after `pure` is transparent. -/
theorem M.pure_bind {α β : Type} (a : α) (f : α → M β) : M.bind (M.pure a) f = f a := by
  simp [M.bind, M.pure]

/-- An event attempted by the first computation stays in the trace of the
sequential composition. -/
theorem mem_bind_left {α β : Type} {e : Event} {x : M α} (f : α → M β)
    (h : e ∈ x.2) : e ∈ (M.bind x f).2 := by
  rcases x with ⟨r, t⟩
  cases r with
  | ok a => exact List.mem_append_left _ h
  | error ex => exact h

/-- An event attempted by the guarded block stays in the trace of the
`try/except`. -/
theorem mem_tryCatch_left {α : Type} {e : Event} {x : M α} (h : PyExn → M α)
    (hm : e ∈ x.2) : e ∈ (M.tryCatch x h).2 := by
  rcases x with ⟨r, t⟩
  cases r with
  | ok a => exact hm
  | error ex => exact List.mem_append_left _ hm

/-! ## Concrete inputs used by closed theorems -/

/-- A plain private chat (not a media platform account). -/
def chatFriend : ETMChat := ⟨ChatClass.privateChat, false, "friend"⟩

/-- A media-platform account, which in the host framework is a private
chat carrying the `is_mp` vendor flag. -/
def chatMp : ETMChat := ⟨ChatClass.privateChat, true, "mp account"⟩

/-- Fully configured manager: client credentials present, auto creation
enabled for private (1) and group (2) chats, nothing else configured. -/
def cfgBase : TGConfig where
  auto_manage_tg := true
  tg_api_id := true
  tg_api_hash := true
  auto_create_tg_group := some [1, 2]
  mq_auto_link_group_id := none
  auto_add_group_to_folder := none
  auto_archive_create_tg_group := none
  auto_mute_created_tg_group := none

/-- Collaborators that all succeed: the created group gets id 4242, exactly
one association exists for the chat, one dialog folder exists, and the chat
picture is 100 by 300 pixels. -/
def envAllOk : Env where
  isConnected := true
  startClient := Except.ok ()
  createGroup := Except.ok ⟨4242, "friend"⟩
  resolveBotPeer := Except.ok 1
  resolveChatPeer := Except.ok 2
  editChatAdmin := Except.ok ()
  getDialogFilters := Except.ok [⟨true, 7, "Folder A", [5]⟩]
  folderResolvePeer := Except.ok 9
  updateDialogFilter := Except.ok true
  archiveChats := Except.ok ()
  muteResolvePeer := Except.ok 3
  updateNotifySettings := Except.ok ()
  linkMq := Except.ok ()
  getAssocSlaveMq := Except.ok ["tg chat123"]
  linkCreated := Except.ok ()
  getAssocSlaveChat := Except.ok ["tg chat4242"]
  getAssocMaster := Except.ok ["slave friend1"]
  getChat := Except.ok ()
  getChatPicture := Except.ok (some ⟨100, 300⟩)
  setChatPhoto := Except.ok ()

/-! ## C1 -/

/-- C1: the claim says that when the Telegram group is successfully created
and exactly one database association for the chat exists afterwards,
`create_tg_group_if_needed` returns that association's channel-chat ID
string.  The code violates this: the `finally: return None` clause of
`_create_tg_group` (line 82) overrides the `return tg_chats[0]` of the `try`
block (line 78), so the function returns `None` even on full success — here
with a private chat, type 1 enabled, every collaborator succeeding, and
exactly one association (`"tg chat4242"`) recorded for the chat.  The trace
confirms the association was queried. -/
theorem C1_returns_none_despite_unique_assoc :
    (create_tg_group_if_needed cfgBase envAllOk chatFriend).1 = Except.ok none ∧
    envAllOk.getAssocSlaveChat = Except.ok ["tg chat4242"] ∧
    Event.dbGetAssocSlaveChat ∈ (create_tg_group_if_needed cfgBase envAllOk chatFriend).2 := by
  refine ⟨rfl, rfl, ?_⟩
  decide

/-! ## C9 -/

/-- C9: when `auto_manage_tg`, `tg_api_id` or `tg_api_hash` is missing (or
falsy) in the config, `__init__` never creates the `tg_client` attribute, and
`create_tg_group_if_needed` then raises `AttributeError` on
`if not self.tg_client` instead of returning `None` — with an empty trace. -/
theorem C9_missing_config_raises (cfg : TGConfig) (env : Env) (chat : ETMChat)
    (h : cfg.auto_manage_tg = false ∨ cfg.tg_api_id = false ∨ cfg.tg_api_hash = false) :
    tg_client_is_set cfg = false ∧
    create_tg_group_if_needed cfg env chat = (Except.error PyExn.attributeError, []) := by
  have hs : tg_client_is_set cfg = false := by
    unfold tg_client_is_set
    rcases h with h | h | h <;> simp [h]
  refine ⟨hs, ?_⟩
  unfold create_tg_group_if_needed
  rw [hs]
  rfl

/-- Manager config with the API id entry missing. -/
def cfgNoApi : TGConfig := { cfgBase with tg_api_id := false }

/-- Witness for C9 at a concrete config lacking `tg_api_id`. -/
theorem C9_missing_config_raises_witness :
    tg_client_is_set cfgNoApi = false ∧
    create_tg_group_if_needed cfgNoApi envAllOk chatFriend =
      (Except.error PyExn.attributeError, []) :=
  C9_missing_config_raises cfgNoApi envAllOk chatFriend (Or.inr (Or.inl rfl))

/-! ## C10 -/

/-- C10: a chat that matches no enabled branch — not an `is_mp` chat with a
truthy `mq_auto_link_group_id`, and whose type is not enabled in
`auto_create_tg_group` — makes `create_tg_group_if_needed` return `None`
with an empty trace: no group creation, no linking, no database access. -/
theorem C10_no_branch_no_effects (cfg : TGConfig) (env : Env) (chat : ETMChat)
    (hset : tg_client_is_set cfg = true)
    (hmq : ¬(chat.is_mp = true ∧ pyTruthyOptStr cfg.mq_auto_link_group_id = true))
    (hcr : ¬((chat.is_mp = true ∧ 4 ∈ cfg.auto_create_tg_group.getD []) ∨
        (chat.cls = ChatClass.privateChat ∧ 1 ∈ cfg.auto_create_tg_group.getD []) ∨
        (chat.cls = ChatClass.groupChat ∧ 2 ∈ cfg.auto_create_tg_group.getD []) ∨
        (chat.cls = ChatClass.systemChat ∧ 3 ∈ cfg.auto_create_tg_group.getD []))) :
    create_tg_group_if_needed cfg env chat = (Except.ok none, []) := by
  unfold create_tg_group_if_needed
  simp only [hset]
  simp [hmq, hcr, M.pure]

/-- Config with no `auto_create_tg_group` entry at all. -/
def cfgNoCreate : TGConfig := { cfgBase with auto_create_tg_group := none }

/-- Witness for C10: a plain private chat with auto creation unconfigured. -/
theorem C10_no_branch_no_effects_witness :
    create_tg_group_if_needed cfgNoCreate envAllOk chatFriend = (Except.ok none, []) :=
  C10_no_branch_no_effects cfgNoCreate envAllOk chatFriend (by decide) (by decide) (by decide)

/-! ## C3 -/

/-- C3: on the group-creation path (client present, chat not routed to the
mq-link branch), every exception any collaborator raises — Telegram client
calls, database lookups, chat linking, image handling, for every possible
`Env` — is caught inside `_create_tg_group`, `_async_create_tg_group`,
`_update_chat_image` or the step helpers, and never propagates out of
`create_tg_group_if_needed`: the result is always the normal return `None`,
never an exception. -/
theorem C3_exceptions_swallowed (cfg : TGConfig) (env : Env) (chat : ETMChat)
    (hset : tg_client_is_set cfg = true)
    (hmq : ¬(chat.is_mp = true ∧ pyTruthyOptStr cfg.mq_auto_link_group_id = true)) :
    (create_tg_group_if_needed cfg env chat).1 = Except.ok none := by
  unfold create_tg_group_if_needed
  simp only [hset]
  by_cases hcr : ((chat.is_mp = true ∧ 4 ∈ cfg.auto_create_tg_group.getD []) ∨
      (chat.cls = ChatClass.privateChat ∧ 1 ∈ cfg.auto_create_tg_group.getD []) ∨
      (chat.cls = ChatClass.groupChat ∧ 2 ∈ cfg.auto_create_tg_group.getD []) ∨
      (chat.cls = ChatClass.systemChat ∧ 3 ∈ cfg.auto_create_tg_group.getD []))
  · simp [hmq, hcr, create_tg_group]
  · simp [hmq, hcr, M.pure]

/-- Collaborators that all raise distinct exceptions wherever possible. -/
def envAllFail : Env where
  isConnected := false
  startClient := Except.error (PyExn.external 1)
  createGroup := Except.error (PyExn.external 2)
  resolveBotPeer := Except.error (PyExn.external 3)
  resolveChatPeer := Except.error (PyExn.external 4)
  editChatAdmin := Except.error (PyExn.external 5)
  getDialogFilters := Except.error (PyExn.external 6)
  folderResolvePeer := Except.error (PyExn.external 7)
  updateDialogFilter := Except.error (PyExn.external 8)
  archiveChats := Except.error (PyExn.external 9)
  muteResolvePeer := Except.error (PyExn.external 10)
  updateNotifySettings := Except.error (PyExn.external 11)
  linkMq := Except.error (PyExn.external 12)
  getAssocSlaveMq := Except.error (PyExn.external 13)
  linkCreated := Except.error (PyExn.external 14)
  getAssocSlaveChat := Except.error (PyExn.external 15)
  getAssocMaster := Except.error (PyExn.external 16)
  getChat := Except.error (PyExn.external 17)
  getChatPicture := Except.error PyExn.efbOperationNotSupported
  setChatPhoto := Except.error (PyExn.external 18)

/-- Witness for C3: even when every collaborator raises, the call returns
`None` normally. -/
theorem C3_exceptions_swallowed_witness :
    (create_tg_group_if_needed cfgBase envAllFail chatFriend).1 = Except.ok none :=
  C3_exceptions_swallowed cfgBase envAllFail chatFriend (by decide) (by decide)

/-! ## C5 -/

/-- C5: an `is_mp` chat with a truthy `mq_auto_link_group_id` is handled
entirely by the link branch: the chat is linked to the configured group id
and the association table is queried, and nothing else happens — in
particular no Telegram group is created (the trace holds exactly the link
and the lookup).  The result is the unique association when exactly one
exists, `None` otherwise (zero or several). -/
theorem C5_mq_link_branch (cfg : TGConfig) (env : Env) (chat : ETMChat)
    (s : String) (l : List String)
    (hset : tg_client_is_set cfg = true)
    (hmp : chat.is_mp = true)
    (hmq : cfg.mq_auto_link_group_id = some s) (hs : s ≠ "")
    (hlink : env.linkMq = Except.ok ())
    (hassoc : env.getAssocSlaveMq = Except.ok l) :
    create_tg_group_if_needed cfg env chat =
      (Except.ok (if l.length = 1 then l.head? else none),
       [Event.linkChat s, Event.dbGetAssocSlaveMq]) := by
  have hpt : pyTruthyOptStr (some s) = true := by
    simpa [pyTruthyOptStr] using hs
  unfold create_tg_group_if_needed
  simp only [hset, hmq]
  rw [hlink, hassoc]
  by_cases hl : l.length = 1
  · simp [hmp, hpt, hs, hl, M.bind, M.call, M.pure]
  · simp [hmp, hpt, hs, hl, M.bind, M.call, M.pure]

/-- Config routing media-platform chats to the fixed group 123456. -/
def cfgMqLink : TGConfig := { cfgBase with mq_auto_link_group_id := some "123456" }

/-- Witness for C5: one association exists for the configured group, and it
is returned; the trace holds only the link and the lookup. -/
theorem C5_mq_link_branch_witness :
    create_tg_group_if_needed cfgMqLink envAllOk chatMp =
      (Except.ok (if (["tg chat123"] : List String).length = 1
          then (["tg chat123"] : List String).head? else none),
       [Event.linkChat "123456", Event.dbGetAssocSlaveMq]) :=
  C5_mq_link_branch cfgMqLink envAllOk chatMp "123456" ["tg chat123"]
    (by decide) rfl rfl (by decide) rfl rfl

/-! ## C2 -/

/-- On the creation path, once the client is connected the `create_group`
call is always attempted, whatever the collaborators then do. -/
theorem createGroup_mem_async (cfg : TGConfig) (env : Env) (chat : ETMChat)
    (hconn : env.isConnected = true) :
    Event.createGroup ∈ (async_create_tg_group cfg env chat).2 := by
  unfold async_create_tg_group
  rw [hconn]
  apply mem_tryCatch_left
  rw [if_pos rfl, M.pure_bind]
  apply mem_bind_left
  simp [M.call]

/-- C2: with the client present and connected, a Telegram group creation is
attempted if and only if the chat's type is enabled in
`auto_create_tg_group` (4 for an `is_mp` chat, 1 private, 2 group, 3
system) — except that an `is_mp` chat with a truthy `mq_auto_link_group_id`
is routed to the link branch and no group is created for it. -/
theorem C2_create_branch_iff (cfg : TGConfig) (env : Env) (chat : ETMChat)
    (hset : tg_client_is_set cfg = true) (hconn : env.isConnected = true) :
    (Event.createGroup ∈ (create_tg_group_if_needed cfg env chat).2) ↔
      (((chat.is_mp = true ∧ 4 ∈ cfg.auto_create_tg_group.getD []) ∨
        (chat.cls = ChatClass.privateChat ∧ 1 ∈ cfg.auto_create_tg_group.getD []) ∨
        (chat.cls = ChatClass.groupChat ∧ 2 ∈ cfg.auto_create_tg_group.getD []) ∨
        (chat.cls = ChatClass.systemChat ∧ 3 ∈ cfg.auto_create_tg_group.getD [])) ∧
       ¬(chat.is_mp = true ∧ pyTruthyOptStr cfg.mq_auto_link_group_id = true)) := by
  unfold create_tg_group_if_needed
  simp only [hset]
  by_cases hmq : (chat.is_mp = true ∧ pyTruthyOptStr cfg.mq_auto_link_group_id = true)
  · apply iff_of_false
    · obtain ⟨hmp, hpt⟩ := hmq
      rcases hq : cfg.mq_auto_link_group_id with _ | s
      · rw [hq] at hpt
        simp [pyTruthyOptStr] at hpt
      · have hpt2 : pyTruthyOptStr (some s) = true := hq ▸ hpt
        have hs : s ≠ "" := by simpa [pyTruthyOptStr] using hpt2
        rcases env.linkMq with e | u
        · simp [hmp, hpt2, hq, hs, M.bind, M.call, M.pure]
        · rcases env.getAssocSlaveMq with e | l
          · simp [hmp, hpt2, hq, hs, M.bind, M.call, M.pure]
          · by_cases hl : l.length = 1 <;>
              simp [hmp, hpt2, hq, hs, hl, M.bind, M.call, M.pure]
    · simp [hmq]
  · by_cases hcr : ((chat.is_mp = true ∧ 4 ∈ cfg.auto_create_tg_group.getD []) ∨
        (chat.cls = ChatClass.privateChat ∧ 1 ∈ cfg.auto_create_tg_group.getD []) ∨
        (chat.cls = ChatClass.groupChat ∧ 2 ∈ cfg.auto_create_tg_group.getD []) ∨
        (chat.cls = ChatClass.systemChat ∧ 3 ∈ cfg.auto_create_tg_group.getD []))
    · apply iff_of_true
      · simp only [reduceCtorEq, if_false, hmq, hcr, if_pos, if_neg, not_false_eq_true]
        simp only [create_tg_group]
        apply mem_tryCatch_left
        apply mem_bind_left
        exact createGroup_mem_async cfg env chat hconn
      · exact ⟨hcr, hmq⟩
    · apply iff_of_false
      · simp [hmq, hcr, M.pure]
      · intro hc
        exact hcr hc.1

/-- Witness for C2 at a concrete enabled private chat. -/
theorem C2_create_branch_iff_witness :
    (Event.createGroup ∈ (create_tg_group_if_needed cfgBase envAllOk chatFriend).2) ↔
      (((chatFriend.is_mp = true ∧ 4 ∈ cfgBase.auto_create_tg_group.getD []) ∨
        (chatFriend.cls = ChatClass.privateChat ∧ 1 ∈ cfgBase.auto_create_tg_group.getD []) ∨
        (chatFriend.cls = ChatClass.groupChat ∧ 2 ∈ cfgBase.auto_create_tg_group.getD []) ∨
        (chatFriend.cls = ChatClass.systemChat ∧ 3 ∈ cfgBase.auto_create_tg_group.getD [])) ∧
       ¬(chatFriend.is_mp = true ∧ pyTruthyOptStr cfgBase.mq_auto_link_group_id = true)) :=
  C2_create_branch_iff cfgBase envAllOk chatFriend (by decide) rfl

/-! ## C4 -/

/-- Position of an event in the claimed post-creation order: 0 admin rights,
1 folder placement, 2 archiving, 3 muting, 4 avatar sync; `none` for events
that are not configuration steps. -/
def stepIdx : Event → Option Nat
  | Event.editChatAdmin => some 0
  | Event.updateDialogFilter _ _ => some 1
  | Event.archiveChats => some 2
  | Event.updateNotifySettings => some 3
  | Event.setChatPhoto _ => some 4
  | _ => none

/-- The configuration steps attempted in a trace, in trace order. -/
def configSteps (t : List Event) : List Nat := t.filterMap stepIdx

theorem configSteps_append (t1 t2 : List Event) :
    configSteps (t1 ++ t2) = configSteps t1 ++ configSteps t2 := by
  simp [configSteps]

/-- Composition: if the first computation's steps refine `A` and every
continuation's steps refine `B`, the composite's steps refine `A ++ B`. -/
theorem steps_bind {α β : Type} (x : M α) (f : α → M β) (A B : List Nat)
    (hx : List.Sublist (configSteps x.2) A)
    (hf : ∀ a, List.Sublist (configSteps (f a).2) B) :
    List.Sublist (configSteps (M.bind x f).2) (A ++ B) := by
  rcases x with ⟨r, t⟩
  cases r with
  | ok a =>
      rw [show (M.bind (Except.ok a, t) f).2 = t ++ (f a).2 from rfl, configSteps_append]
      exact List.Sublist.append hx (hf a)
  | error e =>
      exact List.Sublist.trans hx (List.sublist_append_left A B)

/-- A `try/except` whose handler makes no calls leaves the trace of the
guarded block unchanged. -/
theorem tryCatch_pure_trace {α : Type} (x : M α) (c : α) :
    (M.tryCatch x (fun _ => M.pure c)).2 = x.2 := by
  rcases x with ⟨r, t⟩
  cases r <;> simp [M.tryCatch, M.pure]

theorem steps_folder (cfg : TGConfig) (env : Env) (chat : ETMChat) :
    List.Sublist (configSteps (add_tg_group_to_folder_if_needed cfg env chat).2) [1] := by
  unfold add_tg_group_to_folder_if_needed
  rw [tryCatch_pure_trace]
  by_cases hfc : cfg.auto_add_group_to_folder.getD [] = []
  · simp [hfc, configSteps, M.pure]
  · rcases hgf : env.getDialogFilters with e | folders
    · simp [hfc, hgf, M.bind, M.call, configSteps, stepIdx]
    · rcases hpt : pick_target (cfg.auto_add_group_to_folder.getD []) folders chat
        with e | target
      · simp [hfc, hgf, hpt, M.bind, M.call, M.throw, configSteps, stepIdx]
      · cases target with
        | noneVal => simp [hfc, hgf, hpt, M.bind, M.call, M.pure, configSteps, stepIdx]
        | sentinel =>
            rcases hfr : env.folderResolvePeer with e | p <;>
              simp [hfc, hgf, hpt, hfr, M.bind, M.call, M.throw, configSteps, stepIdx]
        | folder f =>
            rcases hfr : env.folderResolvePeer with e | p
            · simp [hfc, hgf, hpt, hfr, M.bind, M.call, configSteps, stepIdx]
            · rcases hud : env.updateDialogFilter with e | r
              · simp [hfc, hgf, hpt, hfr, hud, M.bind, M.call, configSteps, stepIdx]
              · cases r <;>
                  simp [hfc, hgf, hpt, hfr, hud, M.bind, M.call, M.pure, M.throw,
                    configSteps, stepIdx]

theorem steps_archive (cfg : TGConfig) (env : Env) (chat : ETMChat) :
    List.Sublist (configSteps (archive_tg_chat_if_needed cfg env chat).2) [2] := by
  unfold archive_tg_chat_if_needed
  rw [tryCatch_pure_trace]
  by_cases hc : array_config_contains_chat_type cfg.auto_archive_create_tg_group chat = true
  · simp [hc, M.call, configSteps, stepIdx]
  · simp [hc, M.pure, configSteps]

theorem steps_mute (cfg : TGConfig) (env : Env) (chat : ETMChat) :
    List.Sublist (configSteps (mute_tg_group_if_needed cfg env chat).2) [3] := by
  unfold mute_tg_group_if_needed
  rw [tryCatch_pure_trace]
  by_cases hc : array_config_contains_chat_type cfg.auto_mute_created_tg_group chat = true
  · rcases hmr : env.muteResolvePeer with e | p <;>
      simp [hc, hmr, M.bind, M.call, configSteps, stepIdx]
  · simp [hc, M.pure, configSteps]

theorem steps_image (env : Env) (tg_chat : TGChat) :
    List.Sublist (configSteps (update_chat_image env tg_chat).2) [4] := by
  unfold update_chat_image
  rw [tryCatch_pure_trace]
  rcases ham : env.getAssocMaster with e | chats
  · simp [ham, M.bind, M.call, configSteps, stepIdx]
  · by_cases hl : chats.length = 1
    · rcases hgc : env.getChat with e | u
      · simp [ham, hl, hgc, M.bind, M.call, M.pure, configSteps, stepIdx]
      · rcases hgp : env.getChatPicture with e | pic
        · simp [ham, hl, hgc, hgp, M.bind, M.call, M.pure, configSteps, stepIdx]
        · cases pic with
          | none => simp [ham, hl, hgc, hgp, M.bind, M.call, M.pure, M.throw,
              configSteps, stepIdx]
          | some img =>
              rcases hsp : env.setChatPhoto with e | u
              · by_cases hsz : img.w < 256 ∨ img.h < 256
                · by_cases hz : min img.w img.h = 0 <;>
                    simp [ham, hl, hgc, hgp, hsp, hsz, hz, M.bind, M.call, M.pure, M.throw,
                      configSteps, stepIdx]
                · simp [ham, hl, hgc, hgp, hsp, hsz, M.bind, M.call, M.pure,
                    configSteps, stepIdx]
              · by_cases hsz : img.w < 256 ∨ img.h < 256
                · by_cases hz : min img.w img.h = 0 <;>
                    simp [ham, hl, hgc, hgp, hsp, hsz, hz, M.bind, M.call, M.pure, M.throw,
                      configSteps, stepIdx]
                · simp [ham, hl, hgc, hgp, hsp, hsz, M.bind, M.call, M.pure,
                    configSteps, stepIdx]
    · simp [ham, hl, M.bind, M.call, M.throw, configSteps, stepIdx]

/-- Returning a value contributes no configuration step. -/
theorem steps_pure_sub {α : Type} (a : α) (l : List Nat) :
    List.Sublist (configSteps (M.pure a).2) l := List.nil_sublist l

/-- Raising contributes no configuration step. -/
theorem steps_throw_sub {α : Type} (e : PyExn) (l : List Nat) :
    List.Sublist (configSteps (M.throw e : M α).2) l := List.nil_sublist l

/-- A call whose event is not a configuration step contributes nothing. -/
theorem steps_call_sub_nil {α : Type} (ev : Event) (r : Except PyExn α)
    (h : stepIdx ev = none) : List.Sublist (configSteps (M.call ev r).2) [] := by
  have hc : configSteps (M.call ev r).2 = [] := by simp [M.call, configSteps, h]
  rw [hc]

/-- A call whose event is step `n` contributes exactly `[n]`. -/
theorem steps_call_sub_self {α : Type} (ev : Event) (r : Except PyExn α) (n : Nat)
    (h : stepIdx ev = some n) : List.Sublist (configSteps (M.call ev r).2) [n] := by
  have hc : configSteps (M.call ev r).2 = [n] := by simp [M.call, configSteps, h]
  rw [hc]

theorem steps_async (cfg : TGConfig) (env : Env) (chat : ETMChat) :
    List.Sublist (configSteps (async_create_tg_group cfg env chat).2) [0, 1, 2, 3] := by
  unfold async_create_tg_group
  rw [tryCatch_pure_trace]
  have hstart : List.Sublist (configSteps
      (if env.isConnected then M.pure () else M.call Event.startClient env.startClient).2) [] := by
    cases env.isConnected
    · exact steps_call_sub_nil Event.startClient env.startClient rfl
    · exact steps_pure_sub () []
  refine List.Sublist.trans (steps_bind _ _ [] [0, 1, 2, 3] hstart ?_) (by decide)
  intro u
  refine List.Sublist.trans (steps_bind _ _ [] [0, 1, 2, 3]
    (steps_call_sub_nil Event.createGroup env.createGroup rfl) ?_) (by decide)
  intro tg_chat
  rw [tryCatch_pure_trace]
  refine List.Sublist.trans (steps_bind _ _ [] [0, 1, 2, 3]
    (steps_call_sub_nil Event.resolveBotPeer env.resolveBotPeer rfl) ?_) (by decide)
  intro p1
  refine List.Sublist.trans (steps_bind _ _ [] [0, 1, 2, 3]
    (steps_call_sub_nil Event.resolveChatPeer env.resolveChatPeer rfl) ?_) (by decide)
  intro p2
  refine List.Sublist.trans (steps_bind _ _ [0] [1, 2, 3]
    (steps_call_sub_self Event.editChatAdmin env.editChatAdmin 0 rfl) ?_) (by decide)
  intro u2
  refine List.Sublist.trans
    (steps_bind _ _ [1] [2, 3] (steps_folder cfg env chat) ?_) (by decide)
  intro u3
  refine List.Sublist.trans
    (steps_bind _ _ [2] [3] (steps_archive cfg env chat) ?_) (by decide)
  intro u4
  refine List.Sublist.trans
    (steps_bind _ _ [3] [] (steps_mute cfg env chat) ?_) (by decide)
  intro u5
  exact steps_pure_sub (some tg_chat) []

theorem steps_create (cfg : TGConfig) (env : Env) (chat : ETMChat) :
    List.Sublist (configSteps (create_tg_group cfg env chat).2) [0, 1, 2, 3, 4] := by
  simp only [create_tg_group]
  rw [tryCatch_pure_trace]
  refine List.Sublist.trans
    (steps_bind _ _ [0, 1, 2, 3] [4] (steps_async cfg env chat) ?_) (by decide)
  intro tg_chat_opt
  have hmatch : List.Sublist (configSteps
      (match tg_chat_opt with
       | none => M.throw PyExn.attributeError
       | some c => M.pure c).2) [] := by
    cases tg_chat_opt
    · exact steps_throw_sub PyExn.attributeError []
    · exact steps_pure_sub _ []
  refine List.Sublist.trans (steps_bind _ _ [] [4] hmatch ?_) (by decide)
  intro tg_chat
  refine List.Sublist.trans (steps_bind _ _ [] [4]
    (steps_call_sub_nil (Event.linkChat (toString tg_chat.id)) env.linkCreated rfl) ?_)
    (by decide)
  intro u
  refine List.Sublist.trans
    (steps_bind _ _ [4] [] (steps_image env tg_chat) ?_) (by decide)
  intro u2
  refine List.Sublist.trans (steps_bind _ _ [] []
    (steps_call_sub_nil Event.dbGetAssocSlaveChat env.getAssocSlaveChat rfl) ?_) (by decide)
  intro tg_chats
  refine List.Sublist.trans (steps_bind _ _ [] [] ?_ ?_) (by decide)
  · by_cases hl : tg_chats.length = 1 <;> simp [hl, M.pure, M.throw, configSteps]
  intro u3
  exact steps_pure_sub tg_chats.head? []

/-- C4: the five post-creation configuration steps — 0 admin rights, 1 folder
placement, 2 archiving, 3 muting, 4 avatar sync — are attempted at most once
each and always in that order: for every config, collaborator behaviour and
chat, the sequence of steps in the trace is a sublist of `[0, 1, 2, 3, 4]`,
so no later step ever runs before an earlier one. -/
theorem C4_post_creation_order (cfg : TGConfig) (env : Env) (chat : ETMChat) :
    List.Sublist (configSteps (create_tg_group_if_needed cfg env chat).2) [0, 1, 2, 3, 4] := by
  unfold create_tg_group_if_needed
  by_cases hg : tg_client_is_set cfg = false
  · simp [hg, M.throw, configSteps]
  · by_cases hmq : (chat.is_mp = true ∧ pyTruthyOptStr cfg.mq_auto_link_group_id = true)
    · by_cases he : cfg.mq_auto_link_group_id.getD "" = ""
      · simp [hg, hmq, he, configSteps]
      · rcases hlk : env.linkMq with e | u
        · simp [hg, hmq, he, hlk, M.bind, M.call, configSteps, stepIdx]
        · rcases has : env.getAssocSlaveMq with e | l
          · simp [hg, hmq, he, hlk, has, M.bind, M.call, configSteps, stepIdx]
          · by_cases hl : l.length = 1 <;>
              simp [hg, hmq, he, hlk, has, hl, M.bind, M.call, M.pure, configSteps, stepIdx]
    · by_cases hcr : ((chat.is_mp = true ∧ 4 ∈ cfg.auto_create_tg_group.getD []) ∨
          (chat.cls = ChatClass.privateChat ∧ 1 ∈ cfg.auto_create_tg_group.getD []) ∨
          (chat.cls = ChatClass.groupChat ∧ 2 ∈ cfg.auto_create_tg_group.getD []) ∨
          (chat.cls = ChatClass.systemChat ∧ 3 ∈ cfg.auto_create_tg_group.getD []))
      · simpa [hg, hmq, hcr] using steps_create cfg env chat
      · simp [hg, hmq, hcr, M.pure, configSteps]

/-! ## C6 -/

theorem mk_target_folder (folders : List Folder) (v : String) (f : Folder)
    (h : mk_target folders v = TargetFolder.folder f) :
    get_target_folder folders v = some f := by
  unfold mk_target at h
  rcases hg : get_target_folder folders v with _ | g
  · rw [hg] at h
    simp at h
  · rw [hg] at h
    simp at h
    rw [h]

/-- A successful `get_target_folder` means the filter over the dialog
filters returned exactly one folder, whose title is the searched one. -/
theorem get_target_folder_eq (folders : List Folder) (v : String) (f : Folder)
    (h : get_target_folder folders v = some f) :
    folders.filter (fun x => x.isDialogFilter && x.title == v) = [f] ∧ f.title = v := by
  unfold get_target_folder at h
  rcases hf : folders.filter (fun x => x.isDialogFilter && x.title == v) with _ | ⟨g, rest⟩
  · rw [hf] at h
    simp at h
  · rcases rest with _ | ⟨g2, rest2⟩
    · rw [hf] at h
      simp at h
      rw [h] at hf
      refine ⟨hf, ?_⟩
      have hg : f ∈ folders.filter (fun x => x.isDialogFilter && x.title == v) := by
        rw [hf]
        exact List.mem_singleton_self f
      have hp := List.of_mem_filter hg
      simp at hp
      exact hp.2
    · rw [hf] at h
      simp at h

theorem pick_system_spec (fc : List (Nat × String)) (folders : List Folder)
    (chat : ETMChat) (f : Folder)
    (h : pick_system fc folders chat = Except.ok (TargetFolder.folder f)) :
    ∃ v, get_target_folder folders v = some f := by
  unfold pick_system at h
  by_cases hc : chat.cls = ChatClass.systemChat
  · rcases hd : dict_get fc 3 with _ | v
    · simp [hc, hd] at h
    · by_cases hv : (v != "") = true
      · simp [hc, hd, hv] at h
        exact ⟨v, mk_target_folder folders v f h⟩
      · simp [hc, hd, hv] at h
  · simp [hc] at h

theorem pick_group_spec (fc : List (Nat × String)) (folders : List Folder)
    (chat : ETMChat) (f : Folder)
    (h : pick_group fc folders chat = Except.ok (TargetFolder.folder f)) :
    ∃ v, get_target_folder folders v = some f := by
  unfold pick_group at h
  by_cases hc : chat.cls = ChatClass.groupChat
  · rcases hd : dict_get fc 2 with _ | v
    · simp [hc, hd] at h
    · by_cases hv : (v != "") = true
      · simp [hc, hd, hv] at h
        exact ⟨v, mk_target_folder folders v f h⟩
      · simp only [hc, hd, hv, if_pos, if_neg, if_true, if_false, ite_false] at h
        exact pick_system_spec fc folders chat f h
  · rw [if_neg hc] at h
    exact pick_system_spec fc folders chat f h

theorem pick_private_spec (fc : List (Nat × String)) (folders : List Folder)
    (chat : ETMChat) (f : Folder)
    (h : pick_private fc folders chat = Except.ok (TargetFolder.folder f)) :
    ∃ v, get_target_folder folders v = some f := by
  unfold pick_private at h
  by_cases hc : chat.cls = ChatClass.privateChat
  · rcases hd : dict_get fc 1 with _ | v
    · simp [hc, hd] at h
    · by_cases hv : (v != "") = true
      · simp [hc, hd, hv] at h
        exact ⟨v, mk_target_folder folders v f h⟩
      · simp only [hc, hd, hv, if_pos, if_neg, if_true, if_false, ite_false] at h
        exact pick_group_spec fc folders chat f h
  · rw [if_neg hc] at h
    exact pick_group_spec fc folders chat f h

/-- When the `if/elif` chain produces an actual folder, it came from
`get_target_folder` at some configured title. -/
theorem pick_target_spec (fc : List (Nat × String)) (folders : List Folder)
    (chat : ETMChat) (f : Folder)
    (h : pick_target fc folders chat = Except.ok (TargetFolder.folder f)) :
    ∃ v, get_target_folder folders v = some f := by
  unfold pick_target at h
  by_cases hc : chat.is_mp = true
  · rcases hd : dict_get fc 4 with _ | v
    · simp [hc, hd] at h
    · by_cases hv : (v != "") = true
      · simp [hc, hd, hv] at h
        exact ⟨v, mk_target_folder folders v f h⟩
      · simp only [hc, hd, hv, if_pos, if_neg, if_true, if_false, ite_false] at h
        exact pick_private_spec fc folders chat f h
  · have hc2 : chat.is_mp = false := by
      cases hb : chat.is_mp
      · rfl
      · exact absurd hb hc
    rw [hc2] at h
    simp only [Bool.false_eq_true, if_false] at h
    exact pick_private_spec fc folders chat f h

/-- C6: whenever `_add_tg_group_to_folder_if_needed` invokes
`UpdateDialogFilter`, the targeted folder is the unique `DialogFilter`
carrying its title among the filters the client returned, and the update
appends the freshly resolved peer to that folder's `include_peers`.
Contrapositively, when zero or several filters share the configured title
(`get_target_folder` yields `None`), no update is ever invoked. -/
theorem C6_folder_update_unique (cfg : TGConfig) (env : Env) (chat : ETMChat)
    (fid : Nat) (ps : List Nat)
    (hmem : Event.updateDialogFilter fid ps ∈
      (add_tg_group_to_folder_if_needed cfg env chat).2) :
    ∃ folders f peer,
      env.getDialogFilters = Except.ok folders ∧
      env.folderResolvePeer = Except.ok peer ∧
      folders.filter (fun x => x.isDialogFilter && x.title == f.title) = [f] ∧
      fid = f.id ∧ ps = f.include_peers ++ [peer] := by
  unfold add_tg_group_to_folder_if_needed at hmem
  rw [tryCatch_pure_trace] at hmem
  by_cases hfc : cfg.auto_add_group_to_folder.getD [] = []
  · simp [hfc, M.pure] at hmem
  · rcases hgf : env.getDialogFilters with e | folders
    · simp [hfc, hgf, M.bind, M.call] at hmem
    · rcases hpt : pick_target (cfg.auto_add_group_to_folder.getD []) folders chat
        with e | target
      · simp [hfc, hgf, hpt, M.bind, M.call, M.throw] at hmem
      · cases target with
        | noneVal => simp [hfc, hgf, hpt, M.bind, M.call, M.pure] at hmem
        | sentinel =>
            rcases hfr : env.folderResolvePeer with e | p <;>
              simp [hfc, hgf, hpt, hfr, M.bind, M.call, M.throw] at hmem
        | folder f =>
            rcases hfr : env.folderResolvePeer with e | p
            · simp [hfc, hgf, hpt, hfr, M.bind, M.call] at hmem
            · obtain ⟨v, hv⟩ := pick_target_spec _ folders chat f hpt
              obtain ⟨hfilter, htitle⟩ := get_target_folder_eq folders v f hv
              rw [htitle.symm] at hfilter
              have hkey : fid = f.id ∧ ps = f.include_peers ++ [p] := by
                rcases hud : env.updateDialogFilter with e | r
                · simp [hfc, hgf, hpt, hfr, hud, M.bind, M.call] at hmem
                  exact hmem
                · cases r <;>
                    · simp [hfc, hgf, hpt, hfr, hud, M.bind, M.call, M.pure, M.throw] at hmem
                      exact hmem
              exact ⟨folders, f, p, rfl, rfl, hfilter, hkey⟩

/-- Config placing auto-created private-chat groups into the folder titled
`Folder A`. -/
def cfgFolder : TGConfig := { cfgBase with auto_add_group_to_folder := some [(1, "Folder A")] }

/-- Witness for C6: with exactly one `DialogFilter` titled `Folder A`, the
update is invoked and targets it, appending the resolved peer 9. -/
theorem C6_folder_update_unique_witness :
    ∃ folders f peer,
      envAllOk.getDialogFilters = Except.ok folders ∧
      envAllOk.folderResolvePeer = Except.ok peer ∧
      folders.filter (fun x => x.isDialogFilter && x.title == f.title) = [f] ∧
      7 = f.id ∧ [5, 9] = f.include_peers ++ [peer] :=
  C6_folder_update_unique cfgFolder envAllOk chatFriend 7 [5, 9] (by decide)

/-! ## C7 -/

/-- The claim's reading of the chat category, following the spec's words: one
category number per chat — 4 for an `is_mp` chat, else 1 for private, 2 for
group, 3 for system.  Kept separate from the source-derived
`array_config_contains_chat_type` so the two can be compared. -/
def specChatCategory (chat : ETMChat) : Nat :=
  if chat.is_mp then 4
  else
    match chat.cls with
    | ChatClass.privateChat => 1
    | ChatClass.groupChat => 2
    | ChatClass.systemChat => 3

/-- Config archiving only auto-created groups of category 1. -/
def cfgArchivePriv : TGConfig := { cfgBase with auto_archive_create_tg_group := some [1] }

/-- C7 counterexample: a media-platform chat is an `ETMPrivateChat` carrying
the `is_mp` flag; its claimed category is 4, and 4 is not in the archive
list `[1]`, so the claim says the group is not archived — yet the code
archives it, because `_array_config_contains_chat_type` is a disjunction
over all matching clauses and this chat also matches the private-chat
clause `1 in config`. -/
theorem C7_category_counterexample :
    Event.archiveChats ∈ (archive_tg_chat_if_needed cfgArchivePriv envAllOk chatMp).2 ∧
    specChatCategory chatMp = 4 ∧
    ¬((4 : Nat) ∈ cfgArchivePriv.auto_archive_create_tg_group.getD []) :=
  ⟨by decide, rfl, by decide⟩

/-- C7 amended: the group is archived (muted) if and only if the chat
matches `auto_archive_create_tg_group` (`auto_mute_created_tg_group`) under
the code's disjunctive test — `is_mp` with 4, private with 1, group with 2,
system with 3, one chat possibly matching through several clauses — and a
missing config list behaves exactly like an empty one.  The mute direction
assumes peer resolution succeeds, since muting resolves the peer first. -/
theorem C7_archive_mute_amended (cfg : TGConfig) (env : Env) (chat : ETMChat)
    (p : Nat) (hp : env.muteResolvePeer = Except.ok p) :
    (Event.archiveChats ∈ (archive_tg_chat_if_needed cfg env chat).2 ↔
      array_config_contains_chat_type cfg.auto_archive_create_tg_group chat = true) ∧
    (Event.updateNotifySettings ∈ (mute_tg_group_if_needed cfg env chat).2 ↔
      array_config_contains_chat_type cfg.auto_mute_created_tg_group chat = true) ∧
    archive_tg_chat_if_needed { cfg with auto_archive_create_tg_group := none } env chat =
      archive_tg_chat_if_needed { cfg with auto_archive_create_tg_group := some [] } env chat ∧
    mute_tg_group_if_needed { cfg with auto_mute_created_tg_group := none } env chat =
      mute_tg_group_if_needed { cfg with auto_mute_created_tg_group := some [] } env chat := by
  refine ⟨?_, ?_, rfl, rfl⟩
  · unfold archive_tg_chat_if_needed
    rw [tryCatch_pure_trace]
    by_cases hc : array_config_contains_chat_type cfg.auto_archive_create_tg_group chat = true
    · simp [hc, M.call]
    · simp [hc, M.pure]
  · unfold mute_tg_group_if_needed
    rw [tryCatch_pure_trace]
    by_cases hc : array_config_contains_chat_type cfg.auto_mute_created_tg_group chat = true
    · simp [hc, hp, M.bind, M.call]
    · simp [hc, M.pure]

/-- Witness for the amended C7 at a concrete config and chat. -/
theorem C7_archive_mute_amended_witness :
    (Event.archiveChats ∈ (archive_tg_chat_if_needed cfgArchivePriv envAllOk chatFriend).2 ↔
      array_config_contains_chat_type cfgArchivePriv.auto_archive_create_tg_group chatFriend
        = true) ∧
    (Event.updateNotifySettings ∈ (mute_tg_group_if_needed cfgArchivePriv envAllOk chatFriend).2 ↔
      array_config_contains_chat_type cfgArchivePriv.auto_mute_created_tg_group chatFriend
        = true) ∧
    archive_tg_chat_if_needed
        { cfgArchivePriv with auto_archive_create_tg_group := none } envAllOk chatFriend =
      archive_tg_chat_if_needed
        { cfgArchivePriv with auto_archive_create_tg_group := some [] } envAllOk chatFriend ∧
    mute_tg_group_if_needed
        { cfgArchivePriv with auto_mute_created_tg_group := none } envAllOk chatFriend =
      mute_tg_group_if_needed
        { cfgArchivePriv with auto_mute_created_tg_group := some [] } envAllOk chatFriend :=
  C7_archive_mute_amended cfgArchivePriv envAllOk chatFriend 3 rfl

/-! ## C8 -/

/-- C8: when the chat picture is successfully obtained and opened (a unique
master association, chat lookup succeeding, a real picture with positive
dimensions), the photo handed to `set_chat_photo` is the rescaled PNG — both
dimensions multiplied by 256 and divided by the smaller one, truncated — if
and only if the width or height is below 256; otherwise it is the original
picture unchanged.  Python's float `int(scale * a)` is idealised as exact
floor arithmetic. -/
theorem C8_avatar_upload (env : Env) (tg_chat : TGChat) (c : String) (img : Image) (p : Photo)
    (h1 : env.getAssocMaster = Except.ok [c])
    (h2 : env.getChat = Except.ok ())
    (h3 : env.getChatPicture = Except.ok (some img))
    (hw : 0 < img.w) (hh : 0 < img.h) :
    Event.setChatPhoto p ∈ (update_chat_image env tg_chat).2 ↔
      p = (if img.w < 256 ∨ img.h < 256
           then Photo.resizedPNG (256 * img.w / min img.w img.h) (256 * img.h / min img.w img.h)
           else Photo.original img) := by
  have hz : ¬(min img.w img.h = 0) :=
    Nat.pos_iff_ne_zero.mp (lt_min_iff.mpr ⟨hw, hh⟩)
  unfold update_chat_image
  rw [tryCatch_pure_trace, h1, h2, h3]
  by_cases hsz : img.w < 256 ∨ img.h < 256
  · rcases hsp : env.setChatPhoto with e | u <;>
      simp [hsz, hz, M.bind, M.call, M.pure, M.throw]
  · rcases hsp : env.setChatPhoto with e | u <;>
      simp [hsz, hz, M.bind, M.call, M.pure, M.throw]

/-- Witness for C8: a 100 by 300 picture is below 256 in width, so the
uploaded photo is the PNG rescaled to 256 by 768. -/
theorem C8_avatar_upload_witness :
    Event.setChatPhoto (Photo.resizedPNG 256 768) ∈
        (update_chat_image envAllOk ⟨4242, "friend"⟩).2 ↔
      Photo.resizedPNG 256 768 = (if (100 : Nat) < 256 ∨ (300 : Nat) < 256
        then Photo.resizedPNG (256 * 100 / min 100 300) (256 * 300 / min 100 300)
        else Photo.original ⟨100, 300⟩) :=
  C8_avatar_upload envAllOk ⟨4242, "friend"⟩ "slave friend1" ⟨100, 300⟩
    (Photo.resizedPNG 256 768) rfl rfl rfl (by decide) (by decide)
